import Mathlib

/-!
Verification of the run-dispatch pipeline of `backend/app/api/runs.py`
(opengpts).  Python dictionaries holding JSON-like data are embedded as
association lists of `JVal`s with insert/override semantics matching
Python dict literals; the dispatcher `_run_input_and_config`, the
`create_run` handler and the feedback endpoint are embedded as pure
functions over an explicit environment (storage lookups, the input-schema
validator) and return, next to their outcome, the ordered list of
externally visible effects they performed.
-/

/-- JSON-like values as stored in Python dicts (thread/assistant records,
configs, payloads). -/
inductive JVal where
  | null : JVal
  | bool : Bool → JVal
  | num : Int → JVal
  | str : String → JVal
  | list : List JVal → JVal
  | obj : List (String × JVal) → JVal

/-- A Python dict with string keys, in insertion order. -/
abbrev Dict := List (String × JVal)

/-- `d[k]` / `d.get(k)`: first binding of `k` (a genuine Python dict has at
most one binding per key). -/
def dget : Dict → String → Option JVal
  | [], _ => none
  | (k, v) :: rest, key => if k = key then some v else dget rest key

/-- `d[k] = v`: replace the binding of `k` in place if present, else append
it — the semantics of building a dict literal entry by entry. -/
def dset (d : Dict) (k : String) (v : JVal) : Dict :=
  if (dget d k).isSome then
    d.map (fun p => if p.1 = k then (k, v) else p)
  else
    d ++ [(k, v)]

/-- `{**a, **b}`: insert every binding of `b` into `a`, later bindings
overriding earlier ones. -/
def pymerge (a b : Dict) : Dict :=
  b.foldl (fun acc kv => dset acc kv.1 kv.2) a

/-- Python truthiness of a JSON value (`x or {}` replaces falsy values). -/
def falsy : JVal → Bool
  | .null => true
  | .bool b => !b
  | .num n => n = 0
  | .str s => s = ""
  | .list l => l.isEmpty
  | .obj d => d.isEmpty

theorem dget_append (a b : Dict) (key : String) :
    dget (a ++ b) key = (dget a key).orElse (fun _ => dget b key) := by
  induction a with
  | nil => simp [dget]
  | cons p rest ih =>
    rcases p with ⟨k, v⟩
    by_cases hk : k = key
    · simp [dget, hk]
    · simp [dget, hk, ih]

theorem dget_map_set_self (d : Dict) (k : String) (v : JVal)
    (h : (dget d k).isSome) :
    dget (d.map fun p => if p.1 = k then (k, v) else p) k = some v := by
  induction d with
  | nil => simp [dget] at h
  | cons p rest ih =>
    rcases p with ⟨pk, pv⟩
    by_cases hp : pk = k
    · subst hp
      simp only [List.map_cons]
      simp [dget]
    · have h' : (dget rest k).isSome := by simpa [dget, hp] using h
      simp only [List.map_cons]
      rw [if_neg (by simpa using hp)]
      simpa [dget, hp] using ih h'

theorem dget_map_set_ne (d : Dict) (k : String) (v : JVal) (k' : String)
    (h : k' ≠ k) :
    dget (d.map fun p => if p.1 = k then (k, v) else p) k' = dget d k' := by
  induction d with
  | nil => simp [dget]
  | cons p rest ih =>
    rcases p with ⟨pk, pv⟩
    by_cases hp : pk = k
    · subst hp
      simp only [List.map_cons, if_pos rfl]
      have hne : ¬(pk = k') := fun hh => h hh.symm
      simp [dget, hne, ih]
    · simp only [List.map_cons]
      rw [if_neg (by simpa using hp)]
      by_cases hk' : pk = k'
      · simp [dget, hk']
      · simp [dget, hk', ih]

theorem dget_dset_self (d : Dict) (k : String) (v : JVal) :
    dget (dset d k v) k = some v := by
  unfold dset
  split
  · exact dget_map_set_self d k v (by assumption)
  · rename_i h
    rw [dget_append]
    have : dget d k = none := by
      cases hd : dget d k with
      | none => rfl
      | some w => exact absurd (by simp [hd]) h
    simp [this, dget]

theorem dget_dset_ne (d : Dict) (k : String) (v : JVal) (k' : String)
    (h : k' ≠ k) : dget (dset d k v) k' = dget d k' := by
  unfold dset
  split
  · exact dget_map_set_ne d k v k' h
  · rw [dget_append]
    have hne : ¬(k = k') := fun hh => h hh.symm
    have : dget [(k, v)] k' = none := by simp [dget, hne]
    cases hd : dget d k' with
    | none => simp [this]
    | some w => simp

theorem dget_eq_none_of_not_mem (d : Dict) (k : String)
    (h : k ∉ d.map Prod.fst) : dget d k = none := by
  induction d with
  | nil => rfl
  | cons p rest ih =>
    rcases p with ⟨pk, pv⟩
    have hne : ¬(pk = k) := by
      intro hh
      exact h (by simp [hh])
    simp only [dget, if_neg hne]
    exact ih (fun hm => h (by simp [hm]))

theorem dget_pymerge_of_none (a b : Dict) (k : String)
    (h : dget b k = none) : dget (pymerge a b) k = dget a k := by
  induction b generalizing a with
  | nil => rfl
  | cons p rest ih =>
    rcases p with ⟨bk, bv⟩
    have hne : ¬(bk = k) := by
      intro hh
      simp [dget, hh] at h
    have hrest : dget rest k = none := by simpa [dget, hne] using h
    show dget (pymerge (dset a bk bv) rest) k = dget a k
    rw [ih (dset a bk bv) hrest]
    exact dget_dset_ne a bk bv k (fun hh => hne hh.symm)

theorem dget_pymerge_of_some (a b : Dict) (k : String) (v : JVal)
    (hnd : (b.map Prod.fst).Nodup) (h : dget b k = some v) :
    dget (pymerge a b) k = some v := by
  induction b generalizing a with
  | nil => simp [dget] at h
  | cons p rest ih =>
    rcases p with ⟨bk, bv⟩
    simp only [List.map_cons, List.nodup_cons] at hnd
    by_cases hbk : bk = k
    · subst hbk
      have hv : some bv = some v := by simpa [dget] using h
      have hrest : dget rest bk = none :=
        dget_eq_none_of_not_mem rest bk hnd.1
      show dget (pymerge (dset a bk bv) rest) bk = some v
      rw [dget_pymerge_of_none (dset a bk bv) rest bk hrest]
      rw [dget_dset_self a bk bv]
      exact hv
    · have hrest : dget rest k = some v := by simpa [dget, hbk] using h
      exact ih (dset a bk bv) hnd.2 hrest

/-- Lookup in a Python two-dict merge: the later dict wins key-by-key. -/
theorem dget_pymerge (a b : Dict) (k : String)
    (hnd : (b.map Prod.fst).Nodup) :
    dget (pymerge a b) k = (dget b k).orElse (fun _ => dget a k) := by
  cases hb : dget b k with
  | none => simpa [hb] using dget_pymerge_of_none a b k hb
  | some v => simpa [hb] using dget_pymerge_of_some a b k v hnd hb

/-- An uncaught Python exception raised by dict access or iteration. -/
inductive PyErr where
  | keyError (key : String)
  | typeError
deriving DecidableEq, Repr

/-- A thread record as returned by `get_thread` (the dispatcher reads
`thread["thread_id"]` and `thread["assistant_id"]`, both via `str(...)`). -/
structure Thread where
  thread_id : String
  assistant_id : String

/-- An assistant record as returned by `get_assistant`: its id and its
stored `config` dict. -/
structure Assistant where
  assistant_id : String
  config : Dict

/-- How pydantic fills `CreateRunPayload.input`
(`Optional[List[Dict[str, Any]]] = Field(default_factory=dict)`): an absent
field takes the unvalidated default `dict()`, an explicit JSON `null`
becomes `None`, and a supplied value is kept. -/
inductive RawField (α : Type) where
  | absent : RawField α
  | null : RawField α
  | value (v : α) : RawField α

def parseInputField : RawField JVal → Option JVal
  | .absent => some (.obj [])
  | .null => none
  | .value v => some v

/-- The parsed request body of `POST /runs` and `POST /runs/stream`. -/
structure CreateRunPayload where
  thread_id : String
  input : Option JVal
  config : Option Dict

/-- Modelled from the spec: `AvailableTools.CODE_INTERPRETER` (defined in
`app/agent`, outside this subsystem's source) is the declared type of the
sandbox code-execution tool, a string-valued enum member. -/
def CODE_INTERPRETER : String := "code_interpreter"

/-- The externally visible effects of one request, in order. -/
inductive Ev where
  | threadLookup
  | assistantLookup
  | validateCall
  | astartCall
  | agentInvoke
deriving DecidableEq, Repr

/-- The collaborators of the dispatcher: storage lookups keyed by
`(user_id, id)` and the config-parameterized input-schema validator
`agent.get_input_schema(config).validate(input)`, which returns the
structured `e.errors()` list on failure and `none` on success. -/
structure Env where
  get_thread : String → String → Option Thread
  get_assistant : String → String → Option Assistant
  validateInput : Dict → JVal → Option (List String)

/-- An error terminating the dispatcher: an `HTTPException(status, detail)`,
a `RequestValidationError(errors, body=payload)`, or an uncaught Python
exception. -/
inductive DispatchError where
  | http (status : Nat) (detail : String)
  | requestValidation (errors : List String) (body : CreateRunPayload)
  | py (e : PyErr)

/-- `((payload.config or dict()).get("configurable") or dict())`: the
"configurable" sub-mapping of the request override, with every falsy or
missing stage replaced by the empty dict; a truthy non-mapping value would
make the subsequent `**`-spread raise a TypeError. -/
def configurableOverride (c : Option Dict) : Except PyErr Dict :=
  match dget (c.getD []) "configurable" with
  | none => .ok []
  | some v =>
    if falsy v then .ok []
    else
      match v with
      | .obj m => .ok m
      | _ => .error .typeError

/-- The `config` dict literal built by `_run_input_and_config`: the
assistant's config spread out, with "configurable" rebound to the merge of
the assistant's "configurable", the request override, and the
user/thread/assistant identity bindings, later entries overriding earlier
ones. -/
def resolveConfig (acfg : Dict) (payloadConfig : Option Dict)
    (user_id thread_id assistant_id : String) : Except PyErr Dict :=
  match dget acfg "configurable" with
  | none => .error (.keyError "configurable")
  | some (.obj ac) =>
    match configurableOverride payloadConfig with
    | .error e => .error e
    | .ok ov =>
      let merged :=
        dset (dset (dset (pymerge ac ov)
          "user_id" (.str user_id))
          "thread_id" (.str thread_id))
          "assistant_id" (.str assistant_id)
      .ok (dset (pymerge [] acfg) "configurable" (.obj merged))
  | some _ => .error .typeError

/-- `t["type"] == AvailableTools.CODE_INTERPRETER` for one entry of the
tool list: a non-dict entry raises, a dict without "type" raises KeyError,
and a non-string "type" simply compares unequal to the string enum. -/
def toolMatchesCodeInterpreter : JVal → Except PyErr Bool
  | .obj d =>
    match dget d "type" with
    | none => .error (.keyError "type")
    | some (.str s) => .ok (s = CODE_INTERPRETER)
    | some _ => .ok false
  | _ => .error .typeError

/-- The bootstrap loop: one `get_code_interpreter().astart()` call per
matching entry, counted in order until the first uncaught exception. -/
def bootstrapTools : List JVal → Nat × Option PyErr
  | [] => (0, none)
  | t :: rest =>
    match toolMatchesCodeInterpreter t with
    | .error e => (0, some e)
    | .ok b =>
      let n := if b then 1 else 0
      let r := bootstrapTools rest
      (n + r.1, r.2)

/-- Outcome of `_run_input_and_config` plus the ordered effects it
performed. -/
structure DispatchResult where
  outcome : Except DispatchError (Option JVal × Dict)
  events : List Ev

/-- The final stage of `_run_input_and_config`, reached once lookups,
config resolution and validation are past: print (hence look up)
`assistant["config"]["configurable"]["type==agent/tools"]`, run the
bootstrap loop over it, and return `payload.input` with the merged
config.  `evs` are the effects already performed. -/
def bootstrapStage (assistant : Assistant) (payload : CreateRunPayload)
    (config : Dict) (evs : List Ev) : DispatchResult :=
  match dget assistant.config "configurable" with
  | some (.obj ac) =>
    match dget ac "type==agent/tools" with
    | none => ⟨.error (.py (.keyError "type==agent/tools")), evs⟩
    | some (.list tools) =>
      match bootstrapTools tools with
      | (n, some e) =>
        ⟨.error (.py e), evs ++ List.replicate n .astartCall⟩
      | (n, none) =>
        ⟨.ok (payload.input, config), evs ++ List.replicate n .astartCall⟩
    | some _ => ⟨.error (.py .typeError), evs⟩
  | _ => ⟨.error (.py .typeError), evs⟩

/-- Shallow embedding of `_run_input_and_config(payload, user_id)`:
thread lookup, assistant lookup, config resolution, optional input
validation, then the code-interpreter bootstrap scan over the assistant's
stored `config["configurable"]["type==agent/tools"]` list. -/
def run_input_and_config (env : Env) (payload : CreateRunPayload)
    (user_id : String) : DispatchResult :=
  match env.get_thread user_id payload.thread_id with
  | none => ⟨.error (.http 404 "Thread not found"), [.threadLookup]⟩
  | some thread =>
    match env.get_assistant user_id thread.assistant_id with
    | none =>
      ⟨.error (.http 404 "Assistant not found"), [.threadLookup, .assistantLookup]⟩
    | some assistant =>
      match resolveConfig assistant.config payload.config
          user_id thread.thread_id assistant.assistant_id with
      | .error e => ⟨.error (.py e), [.threadLookup, .assistantLookup]⟩
      | .ok config =>
        match payload.input with
        | some inp =>
          match env.validateInput config inp with
          | some errs =>
            ⟨.error (.requestValidation errs payload),
              [.threadLookup, .assistantLookup, .validateCall]⟩
          | none =>
            bootstrapStage assistant payload config
              [.threadLookup, .assistantLookup, .validateCall]
        | none =>
          bootstrapStage assistant payload config
            [.threadLookup, .assistantLookup]

/-- Outcome of the `POST /runs` handler: the JSON response body (or the
propagated error), the `(input_, config)` pair handed to
`background_tasks.add_task(agent.ainvoke, ...)` if dispatch succeeded, and
the ordered effects. -/
structure CreateRunResult where
  response : Except DispatchError Dict
  task : Option (Option JVal × Dict)
  events : List Ev

/-- Shallow embedding of `create_run`: dispatch, then submit
`agent.ainvoke(input_, config)` as a background task and acknowledge. -/
def create_run (env : Env) (payload : CreateRunPayload)
    (user_id : String) : CreateRunResult :=
  match run_input_and_config env payload user_id with
  | ⟨.error e, evs⟩ => ⟨.error e, none, evs⟩
  | ⟨.ok (input_, config), evs⟩ =>
    ⟨.ok [("status", .str "ok")], some (input_, config), evs ++ [.agentInvoke]⟩

/-- Body of `POST /runs/feedback` (langserve `FeedbackCreateRequest`). -/
structure FeedbackCreateRequest where
  run_id : String
  key : String
  score : Option JVal
  value : Option JVal
  comment : Option String

/-- The routes registered on the runs router: `/feedback` is declared
inside `if tracing_is_enabled():`. -/
def runRoutes (tracingEnabled : Bool) : List String :=
  ["", "/stream", "/input_schema", "/output_schema", "/config_schema"] ++
    (if tracingEnabled then ["/feedback"] else [])

/-- Shallow embedding of `create_run_feedback`: forward the request to
`langsmith_client.create_feedback` (whose recorded-or-rejected outcome,
modelled as a Bool, is ignored) and return the fixed acknowledgment. -/
def create_run_feedback (createFeedback : FeedbackCreateRequest → Bool)
    (req : FeedbackCreateRequest) : Dict :=
  let _ := createFeedback req
  [("status", .str "ok")]

/-- The predicate the bootstrap loop effectively tests on a tool entry. -/
def isCodeInterpreterEntry : JVal → Bool
  | .obj d =>
    match dget d "type" with
    | some (.str s) => s = CODE_INTERPRETER
    | _ => false
  | _ => false

theorem toolMatches_ok (t : JVal) (b : Bool)
    (h : toolMatchesCodeInterpreter t = .ok b) :
    isCodeInterpreterEntry t = b := by
  cases t with
  | obj d =>
    cases hd : dget d "type" with
    | none => simp [toolMatchesCodeInterpreter, hd] at h
    | some v =>
      cases v <;>
        simp_all [toolMatchesCodeInterpreter, isCodeInterpreterEntry, hd]
  | null => cases h
  | bool b' => cases h
  | num n => cases h
  | str s => cases h
  | list l => cases h

theorem bootstrapTools_count (l : List JVal) (n : Nat)
    (h : bootstrapTools l = (n, none)) :
    n = l.countP isCodeInterpreterEntry := by
  induction l generalizing n with
  | nil =>
    simp [bootstrapTools] at h
    simp [h.symm]
  | cons t rest ih =>
    unfold bootstrapTools at h
    cases hm : toolMatchesCodeInterpreter t with
    | error e => rw [hm] at h; cases h
    | ok b =>
      rw [hm] at h
      cases hr : bootstrapTools rest with
      | mk m e2 =>
        rw [hr] at h
        simp only [Prod.mk.injEq] at h
        obtain ⟨hn, he⟩ := h
        subst he
        rw [List.countP_cons, ← ih m hr, toolMatches_ok t b hm, ← hn]
        cases b
        all_goals simp
        all_goals omega

theorem bootstrapStage_run (assistant : Assistant) (payload : CreateRunPayload)
    (config : Dict) (evs : List Ev) (ac : Dict) (tools : List JVal) (n : Nat)
    (hac : dget assistant.config "configurable" = some (.obj ac))
    (htools : dget ac "type==agent/tools" = some (.list tools))
    (hboot : bootstrapTools tools = (n, none)) :
    bootstrapStage assistant payload config evs =
      ⟨.ok (payload.input, config), evs ++ List.replicate n .astartCall⟩ := by
  simp only [bootstrapStage, hac, htools, hboot]

theorem bootstrapStage_ok_inv (assistant : Assistant)
    (payload : CreateRunPayload) (config : Dict) (evs : List Ev)
    (inp : Option JVal) (cfg : Dict)
    (h : (bootstrapStage assistant payload config evs).outcome = .ok (inp, cfg)) :
    inp = payload.input ∧ cfg = config := by
  unfold bootstrapStage at h
  repeat' split at h
  all_goals simp_all

theorem run_ok_input (env : Env) (payload : CreateRunPayload)
    (user_id : String) (inp : Option JVal) (cfg : Dict)
    (h : (run_input_and_config env payload user_id).outcome = .ok (inp, cfg)) :
    inp = payload.input := by
  unfold run_input_and_config at h
  repeat' split at h
  all_goals
    try have hb := bootstrapStage_ok_inv _ _ _ _ _ _ h
  all_goals simp_all

theorem run_ok_resolve (env : Env) (payload : CreateRunPayload)
    (user_id : String) (thread : Thread) (assistant : Assistant)
    (inp : Option JVal) (cfg : Dict)
    (ht : env.get_thread user_id payload.thread_id = some thread)
    (ha : env.get_assistant user_id thread.assistant_id = some assistant)
    (h : (run_input_and_config env payload user_id).outcome = .ok (inp, cfg)) :
    resolveConfig assistant.config payload.config user_id thread.thread_id
      assistant.assistant_id = .ok cfg := by
  unfold run_input_and_config at h
  simp only [ht] at h
  simp only [ha] at h
  cases hres : resolveConfig assistant.config payload.config user_id
      thread.thread_id assistant.assistant_id with
  | error e => simp only [hres] at h; simp at h
  | ok config =>
    simp only [hres] at h
    have hc : cfg = config := by
      repeat' split at h
      all_goals first
        | simp_all
        | exact (bootstrapStage_ok_inv _ _ _ _ _ _ h).2
    rw [hc]

theorem resolveConfig_ok_shape (acfg : Dict) (pc : Option Dict)
    (uid tid aid : String) (cfg : Dict)
    (h : resolveConfig acfg pc uid tid aid = .ok cfg) :
    ∃ ac ov, dget acfg "configurable" = some (.obj ac) ∧
      configurableOverride pc = .ok ov ∧
      cfg = dset (pymerge [] acfg) "configurable"
        (.obj (dset (dset (dset (pymerge ac ov)
          "user_id" (.str uid)) "thread_id" (.str tid))
          "assistant_id" (.str aid))) := by
  unfold resolveConfig at h
  cases hk : dget acfg "configurable" with
  | none => rw [hk] at h; cases h
  | some v =>
    rw [hk] at h
    cases v with
    | obj ac =>
      cases hov : configurableOverride pc with
      | error e => rw [hov] at h; cases h
      | ok ov =>
        rw [hov] at h
        simp only [Except.ok.injEq] at h
        exact ⟨ac, ov, rfl, rfl, h.symm⟩
    | null => cases h
    | bool b => cases h
    | num n => cases h
    | str s => cases h
    | list l => cases h

theorem resolveConfig_pins_identity (acfg : Dict) (pc : Option Dict)
    (uid tid aid : String) (cfg : Dict)
    (h : resolveConfig acfg pc uid tid aid = .ok cfg) :
    ∃ m, dget cfg "configurable" = some (.obj m) ∧
      dget m "user_id" = some (.str uid) ∧
      dget m "thread_id" = some (.str tid) ∧
      dget m "assistant_id" = some (.str aid) := by
  obtain ⟨ac, ov, hac, hov, rfl⟩ := resolveConfig_ok_shape acfg pc uid tid aid cfg h
  refine ⟨_, dget_dset_self _ _ _, ?_, ?_, dget_dset_self _ _ _⟩
  · rw [dget_dset_ne _ _ _ _ (by decide), dget_dset_ne _ _ _ _ (by decide),
      dget_dset_self]
  · rw [dget_dset_ne _ _ _ _ (by decide), dget_dset_self]

theorem dget_pymerge_nil (b : Dict) (k : String)
    (hnd : (b.map Prod.fst).Nodup) :
    dget (pymerge [] b) k = dget b k := by
  rw [dget_pymerge [] b k hnd]
  cases dget b k <;> rfl

theorem bootstrapStage_no_validation_error (assistant : Assistant)
    (payload : CreateRunPayload) (config : Dict) (evs : List Ev)
    (errs : List String) (body : CreateRunPayload) :
    (bootstrapStage assistant payload config evs).outcome ≠
      .error (.requestValidation errs body) := by
  unfold bootstrapStage
  repeat' split
  all_goals simp

theorem bootstrapStage_events_count (assistant : Assistant)
    (payload : CreateRunPayload) (config : Dict) (evs : List Ev) (ev : Ev)
    (hev : ev ≠ .astartCall) :
    ((bootstrapStage assistant payload config evs).events).count ev =
      evs.count ev := by
  unfold bootstrapStage
  repeat' split
  all_goals simp [List.count_append, List.count_replicate, hev]
  all_goals exact fun h => absurd h.symm hev

theorem run_validation_error_full (env : Env) (payload : CreateRunPayload)
    (user_id : String) (errs : List String) (body : CreateRunPayload) :
    (run_input_and_config env payload user_id).outcome =
      .error (.requestValidation errs body) →
    (run_input_and_config env payload user_id).events =
      [.threadLookup, .assistantLookup, .validateCall] := by
  unfold run_input_and_config
  repeat' split
  all_goals intro h
  all_goals first
    | rfl
    | simp at h
    | exact absurd h (bootstrapStage_no_validation_error _ _ _ _ _ _)

theorem create_run_of_ok (env : Env) (payload : CreateRunPayload)
    (user_id : String) (inp : Option JVal) (cfg : Dict) (evs : List Ev)
    (h : run_input_and_config env payload user_id = ⟨.ok (inp, cfg), evs⟩) :
    create_run env payload user_id =
      ⟨.ok [("status", .str "ok")], some (inp, cfg), evs ++ [.agentInvoke]⟩ := by
  simp only [create_run, h]

theorem create_run_of_error (env : Env) (payload : CreateRunPayload)
    (user_id : String) (e : DispatchError)
    (h : (run_input_and_config env payload user_id).outcome = .error e) :
    create_run env payload user_id =
      ⟨.error e, none, (run_input_and_config env payload user_id).events⟩ := by
  cases hr : run_input_and_config env payload user_id with
  | mk outcome events =>
    rw [hr] at h
    simp only at h
    subst h
    simp [create_run, hr]

/-- The merged config carried by a successful dispatch outcome. -/
def outcomeConfig (r : DispatchResult) : Dict :=
  match r.outcome with
  | .ok (_, cfg) => cfg
  | .error _ => []

/-- The config carried by a successful config resolution. -/
def okConfig (e : Except PyErr Dict) : Dict :=
  match e with
  | .ok cfg => cfg
  | .error _ => []

/-- Fixture: a stored assistant whose configurable carries an empty tool
list, plus one unrelated outer key. -/
def assistantF : Assistant :=
  ⟨"a1", [("configurable", .obj [("type==agent/tools", .list [])]),
          ("tags", .list [.str "demo"])]⟩

/-- Fixture: a thread pointing at `assistantF`. -/
def threadF : Thread := ⟨"t1", "a1"⟩

/-- Fixture: storage holding exactly `threadF` and `assistantF`, with a
validator accepting every input. -/
def envF : Env :=
  ⟨fun _ tid => if tid = "t1" then some threadF else none,
   fun _ aid => if aid = "a1" then some assistantF else none,
   fun _ _ => none⟩

/-- Fixture: a request override that tries to spoof all three identity
keys. -/
def payloadSpoof : CreateRunPayload :=
  ⟨"t1", some (.list []), some
    [("configurable", .obj
      [("user_id", .str "intruder"), ("thread_id", .str "other"),
       ("assistant_id", .str "other"), ("temperature", .num 0)])]⟩

/-- Claim C1: on every run dispatch the effective configuration's
"configurable" mapping binds user_id, thread_id and assistant_id to the
authenticated caller's id and the resolved thread and assistant ids, for
every request config override, including overrides supplying conflicting
values for these three keys. -/
theorem effective_config_pins_identity
    (env : Env) (payload : CreateRunPayload) (user_id : String)
    (thread : Thread) (assistant : Assistant) (inp : Option JVal) (cfg : Dict)
    (ht : env.get_thread user_id payload.thread_id = some thread)
    (ha : env.get_assistant user_id thread.assistant_id = some assistant)
    (hok : (run_input_and_config env payload user_id).outcome = .ok (inp, cfg)) :
    ∃ m, dget cfg "configurable" = some (.obj m) ∧
      dget m "user_id" = some (.str user_id) ∧
      dget m "thread_id" = some (.str thread.thread_id) ∧
      dget m "assistant_id" = some (.str assistant.assistant_id) :=
  resolveConfig_pins_identity assistant.config payload.config user_id
    thread.thread_id assistant.assistant_id cfg
    (run_ok_resolve env payload user_id thread assistant inp cfg ht ha hok)

/-- Claim C1 applied to a dispatch whose request override spoofs all three
identity keys: they still come out as the caller's and the resolved ids. -/
theorem effective_config_pins_identity_witness :
    ∃ m, dget (outcomeConfig (run_input_and_config envF payloadSpoof "u"))
        "configurable" = some (.obj m) ∧
      dget m "user_id" = some (.str "u") ∧
      dget m "thread_id" = some (.str "t1") ∧
      dget m "assistant_id" = some (.str "a1") :=
  effective_config_pins_identity envF payloadSpoof "u" threadF assistantF
    (some (.list []))
    (outcomeConfig (run_input_and_config envF payloadSpoof "u")) rfl rfl rfl

/-- Fixture: a request override carrying one fresh configurable key and one
identity-spoofing key. -/
def payloadMergeW : CreateRunPayload :=
  ⟨"t1", none, some [("configurable",
    .obj [("temperature", .num 1), ("user_id", .str "spoof")])]⟩

/-- Claim C4: the effective configuration equals the assistant's config
with only the "configurable" entry replaced by the shallow key-by-key
merge, in increasing precedence, of the assistant's configurable, the
request's configurable override, and the identity triple; every other
outer key is taken unchanged from the assistant template. -/
theorem effective_config_merge
    (acfg : Dict) (pc : Option Dict) (uid tid aid : String)
    (ac ov cfg : Dict)
    (hac : dget acfg "configurable" = some (.obj ac))
    (hov : configurableOverride pc = .ok ov)
    (hndA : (acfg.map Prod.fst).Nodup)
    (hndO : (ov.map Prod.fst).Nodup)
    (hres : resolveConfig acfg pc uid tid aid = .ok cfg) :
    (∀ k, k ≠ "configurable" → dget cfg k = dget acfg k) ∧
    ∃ m, dget cfg "configurable" = some (.obj m) ∧
      dget m "user_id" = some (.str uid) ∧
      dget m "thread_id" = some (.str tid) ∧
      dget m "assistant_id" = some (.str aid) ∧
      ∀ k, k ≠ "user_id" → k ≠ "thread_id" → k ≠ "assistant_id" →
        dget m k = (dget ov k).orElse (fun _ => dget ac k) := by
  obtain ⟨ac', ov', hac', hov', rfl⟩ :=
    resolveConfig_ok_shape acfg pc uid tid aid cfg hres
  obtain rfl : ac' = ac := by
    rw [hac] at hac'
    simpa using hac'.symm
  obtain rfl : ov' = ov := by
    rw [hov] at hov'
    simpa using hov'.symm
  constructor
  · intro k hk
    rw [dget_dset_ne _ _ _ _ hk, dget_pymerge_nil acfg k hndA]
  · refine ⟨_, dget_dset_self _ _ _, ?_, ?_, dget_dset_self _ _ _, ?_⟩
    · rw [dget_dset_ne _ _ _ _ (by decide), dget_dset_ne _ _ _ _ (by decide),
        dget_dset_self]
    · rw [dget_dset_ne _ _ _ _ (by decide), dget_dset_self]
    · intro k h1 h2 h3
      rw [dget_dset_ne _ _ _ _ h3, dget_dset_ne _ _ _ _ h2,
        dget_dset_ne _ _ _ _ h1, dget_pymerge ac' ov' k hndO]

/-- Claim C4 applied to `assistantF` and an override with a fresh key and a
spoofed identity key, checked at the outer key "tags" and the merged keys
"temperature" (from the override) and "type==agent/tools" (from the
assistant's configurable). -/
theorem effective_config_merge_witness :
    dget (okConfig (resolveConfig assistantF.config payloadMergeW.config
        "u" "t1" "a1")) "tags" = some (.list [.str "demo"]) ∧
    ∃ m, dget (okConfig (resolveConfig assistantF.config payloadMergeW.config
        "u" "t1" "a1")) "configurable" = some (.obj m) ∧
      dget m "user_id" = some (.str "u") ∧
      dget m "temperature" = some (.num 1) ∧
      dget m "type==agent/tools" = some (.list []) := by
  have h := effective_config_merge assistantF.config payloadMergeW.config
    "u" "t1" "a1" [("type==agent/tools", .list [])]
    [("temperature", .num 1), ("user_id", .str "spoof")]
    (okConfig (resolveConfig assistantF.config payloadMergeW.config
      "u" "t1" "a1"))
    rfl rfl (by decide) (by decide) rfl
  obtain ⟨houter, m, hm, huid, htid, haid, hrest⟩ := h
  refine ⟨?_, m, hm, huid, ?_, ?_⟩
  · rw [houter "tags" (by decide)]
    rfl
  · rw [hrest "temperature" (by decide) (by decide) (by decide)]
    rfl
  · rw [hrest "type==agent/tools" (by decide) (by decide) (by decide)]
    rfl

/-- Fixture: storage whose thread references an assistant that does not
exist. -/
def envNoAssistant : Env :=
  ⟨fun _ _ => some ⟨"t2", "ax"⟩, fun _ _ => none, fun _ _ => none⟩

/-- Claim C6: a request naming a thread missing for the authenticated user
fails with a 404 whose body is "Thread not found"; an existing thread
whose referenced assistant is missing fails with a 404 whose body is
"Assistant not found". -/
theorem not_found_responses
    (env : Env) (payload : CreateRunPayload) (user_id : String) :
    (env.get_thread user_id payload.thread_id = none →
      (run_input_and_config env payload user_id).outcome =
        .error (.http 404 "Thread not found")) ∧
    (∀ thread, env.get_thread user_id payload.thread_id = some thread →
      env.get_assistant user_id thread.assistant_id = none →
      (run_input_and_config env payload user_id).outcome =
        .error (.http 404 "Assistant not found")) := by
  constructor
  · intro h
    simp only [run_input_and_config, h]
  · intro thread ht ha
    simp only [run_input_and_config, ht, ha]

/-- Claim C6 applied to a request for an unknown thread and to a thread
whose assistant is gone. -/
theorem not_found_responses_witness :
    (run_input_and_config envF ⟨"nope", none, none⟩ "u").outcome =
      .error (.http 404 "Thread not found") ∧
    (run_input_and_config envNoAssistant ⟨"t2", none, none⟩ "u").outcome =
      .error (.http 404 "Assistant not found") :=
  ⟨(not_found_responses envF ⟨"nope", none, none⟩ "u").1 rfl,
   (not_found_responses envNoAssistant ⟨"t2", none, none⟩ "u").2
     ⟨"t2", "ax"⟩ rfl rfl⟩

/-- Modelled from the spec: the HTTP status with which the framework
surfaces each dispatcher error to the caller.  The `raise
RequestValidationError(...)` is in src, but its rendering as a 422
response lives in FastAPI, outside this subsystem's source; the spec
calls it "a client-error-class response (not a server error)" /
"422-equivalent". -/
def errorStatus : DispatchError → Nat
  | .http s _ => s
  | .requestValidation _ _ => 422
  | .py _ => 500

/-- Fixture: storage as in `envF` but with a validator rejecting every
input with one structured field error. -/
def envBadVal : Env :=
  ⟨fun _ tid => if tid = "t1" then some threadF else none,
   fun _ aid => if aid = "a1" then some assistantF else none,
   fun _ _ => some ["field required"]⟩

/-- Claim C7: an input failing schema validation aborts dispatch with a
RequestValidationError — a client-error-class failure, not a server
error — carrying the validator's structured field errors together with the
original request payload. -/
theorem validation_failure_is_client_error
    (env : Env) (payload : CreateRunPayload) (user_id : String)
    (thread : Thread) (assistant : Assistant) (cfg : Dict)
    (inp : JVal) (errs : List String)
    (ht : env.get_thread user_id payload.thread_id = some thread)
    (ha : env.get_assistant user_id thread.assistant_id = some assistant)
    (hres : resolveConfig assistant.config payload.config user_id
      thread.thread_id assistant.assistant_id = .ok cfg)
    (hinp : payload.input = some inp)
    (hval : env.validateInput cfg inp = some errs) :
    (run_input_and_config env payload user_id).outcome =
      .error (.requestValidation errs payload) ∧
    400 ≤ errorStatus (.requestValidation errs payload) ∧
    errorStatus (.requestValidation errs payload) < 500 := by
  refine ⟨?_, by simp [errorStatus], by simp [errorStatus]⟩
  simp only [run_input_and_config, ht, ha, hres, hinp, hval]

/-- Claim C7 applied to a request whose list input the validator rejects. -/
theorem validation_failure_is_client_error_witness :
    (run_input_and_config envBadVal ⟨"t1", some (.list []), none⟩ "u").outcome =
      .error (.requestValidation ["field required"]
        ⟨"t1", some (.list []), none⟩) ∧
    400 ≤ errorStatus (.requestValidation ["field required"]
      ⟨"t1", some (.list []), none⟩) ∧
    errorStatus (.requestValidation ["field required"]
      ⟨"t1", some (.list []), none⟩) < 500 :=
  validation_failure_is_client_error envBadVal ⟨"t1", some (.list []), none⟩
    "u" threadF assistantF
    (okConfig (resolveConfig assistantF.config none "u" "t1" "a1"))
    (.list []) ["field required"] rfl rfl rfl rfl rfl

/-- Claim C8: a successfully dispatched POST /runs submits the
(input, effective config) pair to the background task runner, responds
with the body holding only status "ok" — no run identifier — and the
input passed onward is the request's input unchanged. -/
theorem create_run_acknowledges
    (env : Env) (payload : CreateRunPayload) (user_id : String)
    (inp : Option JVal) (cfg : Dict)
    (hok : (run_input_and_config env payload user_id).outcome = .ok (inp, cfg)) :
    (create_run env payload user_id).response = .ok [("status", .str "ok")] ∧
    (create_run env payload user_id).task = some (inp, cfg) ∧
    inp = payload.input ∧
    ([(("status" : String), JVal.str "ok")].map Prod.fst) = ["status"] := by
  cases hrw : run_input_and_config env payload user_id with
  | mk outcome events =>
    have houtcome : outcome = .ok (inp, cfg) := by
      have h2 := hok
      rw [hrw] at h2
      exact h2
    subst houtcome
    have hcr := create_run_of_ok env payload user_id inp cfg events hrw
    rw [hcr]
    exact ⟨rfl, rfl, run_ok_input env payload user_id inp cfg hok, rfl⟩

/-- Claim C8 applied to a dispatch of `envF` with a plain list input. -/
theorem create_run_acknowledges_witness :
    (create_run envF ⟨"t1", some (.list []), none⟩ "u").response =
      .ok [("status", .str "ok")] ∧
    (create_run envF ⟨"t1", some (.list []), none⟩ "u").task =
      some (some (.list []),
        outcomeConfig (run_input_and_config envF ⟨"t1", some (.list []), none⟩ "u")) ∧
    (some (.list []) : Option JVal) = (⟨"t1", some (.list []), none⟩ : CreateRunPayload).input ∧
    ([(("status" : String), JVal.str "ok")].map Prod.fst) = ["status"] :=
  create_run_acknowledges envF ⟨"t1", some (.list []), none⟩ "u"
    (some (.list []))
    (outcomeConfig (run_input_and_config envF ⟨"t1", some (.list []), none⟩ "u"))
    rfl

/-- Claim C9: the feedback route is registered exactly when the tracing
flag is enabled, and every call to the handler returns status "ok"
regardless of whether the telemetry service records the feedback. -/
theorem feedback_best_effort :
    (∀ t : Bool, "/feedback" ∈ runRoutes t ↔ t = true) ∧
    (∀ (createFeedback : FeedbackCreateRequest → Bool)
       (req : FeedbackCreateRequest),
      create_run_feedback createFeedback req = [("status", .str "ok")]) := by
  constructor
  · intro t
    cases t <;> simp [runRoutes]
  · intro cf req
    rfl

/-- Fixture: an assistant whose stored config has no "configurable" key. -/
def assistantNoConfigurable : Assistant := ⟨"a2", [("tags", .list [])]⟩

/-- Fixture: storage resolving to `assistantNoConfigurable`. -/
def envNoConfigurable : Env :=
  ⟨fun _ _ => some ⟨"t3", "a2"⟩, fun _ _ => some assistantNoConfigurable,
   fun _ _ => none⟩

/-- Fixture: an assistant whose configurable lacks the
"type==agent/tools" key. -/
def assistantNoTools : Assistant :=
  ⟨"a3", [("configurable", .obj [("llm", .str "gpt")])]⟩

/-- Fixture: storage resolving to `assistantNoTools`. -/
def envNoTools : Env :=
  ⟨fun _ _ => some ⟨"t5", "a3"⟩, fun _ _ => some assistantNoTools,
   fun _ _ => none⟩

/-- Claim C10: the dict lookups are unguarded: an assistant config without
"configurable" makes dispatch raise KeyError during config resolution, and
a configurable without "type==agent/tools" makes dispatch raise KeyError
after lookups, config resolution and input validation all succeeded,
instead of returning the (input, config) pair. -/
theorem unguarded_key_lookups
    (env : Env) (payload : CreateRunPayload) (user_id : String)
    (thread : Thread) (assistant : Assistant)
    (ht : env.get_thread user_id payload.thread_id = some thread)
    (ha : env.get_assistant user_id thread.assistant_id = some assistant) :
    (dget assistant.config "configurable" = none →
      (run_input_and_config env payload user_id).outcome =
        .error (.py (.keyError "configurable"))) ∧
    (∀ ac cfg, dget assistant.config "configurable" = some (.obj ac) →
      dget ac "type==agent/tools" = none →
      resolveConfig assistant.config payload.config user_id thread.thread_id
        assistant.assistant_id = .ok cfg →
      (∀ i, payload.input = some i → env.validateInput cfg i = none) →
      (run_input_and_config env payload user_id).outcome =
        .error (.py (.keyError "type==agent/tools"))) := by
  constructor
  · intro hk
    have hres : resolveConfig assistant.config payload.config user_id
        thread.thread_id assistant.assistant_id =
        .error (.keyError "configurable") := by
      simp only [resolveConfig, hk]
    simp only [run_input_and_config, ht, ha, hres]
  · intro ac cfg hac htools hres hval
    have hstage : ∀ evs, (bootstrapStage assistant payload cfg evs).outcome =
        .error (.py (.keyError "type==agent/tools")) := by
      intro evs
      simp only [bootstrapStage, hac, htools]
    cases hi : payload.input with
    | none =>
      simp only [run_input_and_config, ht, ha, hres, hi]
      exact hstage _
    | some i =>
      have hv := hval i hi
      simp only [run_input_and_config, ht, ha, hres, hi, hv]
      exact hstage _

/-- Claim C10 applied to an assistant without a "configurable" key and to
one whose configurable has no "type==agent/tools" key. -/
theorem unguarded_key_lookups_witness :
    (run_input_and_config envNoConfigurable ⟨"t3", none, none⟩ "u").outcome =
      .error (.py (.keyError "configurable")) ∧
    (run_input_and_config envNoTools ⟨"t5", none, none⟩ "u").outcome =
      .error (.py (.keyError "type==agent/tools")) :=
  ⟨(unguarded_key_lookups envNoConfigurable ⟨"t3", none, none⟩ "u"
      ⟨"t3", "a2"⟩ assistantNoConfigurable rfl rfl).1 rfl,
   (unguarded_key_lookups envNoTools ⟨"t5", none, none⟩ "u"
      ⟨"t5", "a3"⟩ assistantNoTools rfl rfl).2
     [("llm", .str "gpt")]
     (okConfig (resolveConfig assistantNoTools.config none "u" "t5" "a3"))
     rfl rfl rfl (fun _ h => Option.noConfusion h)⟩

/-- Claim C5: dispatch is sequential and short-circuiting: a failed thread
lookup yields the 404 at once with the thread lookup as the only effect —
no assistant lookup, validation, tool bootstrap or agent execution — and a
validation failure leaves no astart call and never submits the agent to
the background runner. -/
theorem dispatch_short_circuits
    (env : Env) (payload : CreateRunPayload) (user_id : String) :
    (env.get_thread user_id payload.thread_id = none →
      run_input_and_config env payload user_id =
        ⟨.error (.http 404 "Thread not found"), [.threadLookup]⟩ ∧
      (create_run env payload user_id).task = none ∧
      (create_run env payload user_id).events = [.threadLookup]) ∧
    (∀ errs body,
      (run_input_and_config env payload user_id).outcome =
        .error (.requestValidation errs body) →
      (run_input_and_config env payload user_id).events.count .astartCall = 0 ∧
      (create_run env payload user_id).task = none ∧
      (create_run env payload user_id).events.count .agentInvoke = 0) := by
  constructor
  · intro h
    have hfull : run_input_and_config env payload user_id =
        ⟨.error (.http 404 "Thread not found"), [.threadLookup]⟩ := by
      simp only [run_input_and_config, h]
    have hcr := create_run_of_error env payload user_id
      (.http 404 "Thread not found") (by rw [hfull])
    refine ⟨hfull, ?_, ?_⟩
    · rw [hcr]
    · rw [hcr, hfull]
  · intro errs body h
    have hev := run_validation_error_full env payload user_id errs body h
    have hcr := create_run_of_error env payload user_id
      (.requestValidation errs body) h
    refine ⟨?_, ?_, ?_⟩
    · rw [hev]
      rfl
    · rw [hcr]
    · rw [hcr]
      simp only
      rw [hev]
      rfl

/-- Claim C5 applied to a request for an unknown thread and to a request
whose input the validator rejects. -/
theorem dispatch_short_circuits_witness :
    (run_input_and_config envF ⟨"zz", none, none⟩ "u" =
      ⟨.error (.http 404 "Thread not found"), [.threadLookup]⟩ ∧
     (create_run envF ⟨"zz", none, none⟩ "u").task = none ∧
     (create_run envF ⟨"zz", none, none⟩ "u").events = [.threadLookup]) ∧
    ((run_input_and_config envBadVal ⟨"t1", some (.list []), none⟩ "u").events.count
        .astartCall = 0 ∧
     (create_run envBadVal ⟨"t1", some (.list []), none⟩ "u").task = none ∧
     (create_run envBadVal ⟨"t1", some (.list []), none⟩ "u").events.count
        .agentInvoke = 0) :=
  ⟨(dispatch_short_circuits envF ⟨"zz", none, none⟩ "u").1 rfl,
   (dispatch_short_circuits envBadVal ⟨"t1", some (.list []), none⟩ "u").2
     ["field required"] ⟨"t1", some (.list []), none⟩ rfl⟩

/-- The tool-selection list inside the effective (merged) configuration's
configurable mapping carried by a dispatch result. -/
def effectiveConfigurableTools (r : DispatchResult) : Option JVal :=
  match r.outcome with
  | .ok (_, cfg) =>
    match dget cfg "configurable" with
    | some (.obj m) => dget m "type==agent/tools"
    | _ => none
  | .error _ => none

/-- Fixture: a request whose configurable override replaces the (empty)
stored tool list with one carrying a code-interpreter entry. -/
def payloadToolOverride : CreateRunPayload :=
  ⟨"t1", none, some [("configurable",
    .obj [("type==agent/tools",
      .list [.obj [("type", .str "code_interpreter")]])])]⟩

/-- Claim C2 counterexample: the assistant's stored tool list is empty
while the request override puts a code-interpreter entry into the merged
configurable's tool list; dispatch succeeds, the effective configuration's
tool list contains the code-interpreter entry, yet zero astart calls are
made — the scan reads the assistant's stored list, not the merged one. -/
theorem tool_scan_ignores_merged_config :
    effectiveConfigurableTools (run_input_and_config envF payloadToolOverride "u") =
      some (.list [.obj [("type", .str CODE_INTERPRETER)]]) ∧
    isCodeInterpreterEntry (.obj [("type", .str CODE_INTERPRETER)]) = true ∧
    (run_input_and_config envF payloadToolOverride "u").events.count
      .astartCall = 0 :=
  ⟨rfl, rfl, rfl⟩

/-- Claim C2 as amended: before the run begins the bootstrapper scans the
tool-selection list inside the ASSISTANT'S STORED configurable mapping
(ignoring the request override present in the merged config), and triggers
one asynchronous start call on the shared singleton code-interpreter
handle per entry of that stored list whose type is the code-execution
tool. -/
theorem tool_scan_uses_assistant_list
    (env : Env) (payload : CreateRunPayload) (user_id : String)
    (thread : Thread) (assistant : Assistant) (cfg : Dict)
    (ac : Dict) (tools : List JVal)
    (ht : env.get_thread user_id payload.thread_id = some thread)
    (ha : env.get_assistant user_id thread.assistant_id = some assistant)
    (hres : resolveConfig assistant.config payload.config user_id
      thread.thread_id assistant.assistant_id = .ok cfg)
    (hac : dget assistant.config "configurable" = some (.obj ac))
    (htools : dget ac "type==agent/tools" = some (.list tools))
    (hboot : (bootstrapTools tools).2 = none)
    (hval : ∀ i, payload.input = some i → env.validateInput cfg i = none) :
    (run_input_and_config env payload user_id).outcome =
      .ok (payload.input, cfg) ∧
    (run_input_and_config env payload user_id).events.count .astartCall =
      tools.countP isCodeInterpreterEntry := by
  cases hb : bootstrapTools tools with
  | mk n e =>
    have he : e = none := by
      rw [hb] at hboot
      exact hboot
    subst he
    have hn := bootstrapTools_count tools n hb
    cases hi : payload.input with
    | none =>
      have hrun : run_input_and_config env payload user_id =
          bootstrapStage assistant payload cfg
            [.threadLookup, .assistantLookup] := by
        simp only [run_input_and_config, ht, ha, hres, hi]
      rw [hrun,
        bootstrapStage_run assistant payload cfg _ ac tools n hac htools hb]
      refine ⟨by simp [hi], ?_⟩
      simp [List.count_append, List.count_replicate, ← hn]
    | some i =>
      have hv := hval i hi
      have hrun : run_input_and_config env payload user_id =
          bootstrapStage assistant payload cfg
            [.threadLookup, .assistantLookup, .validateCall] := by
        simp only [run_input_and_config, ht, ha, hres, hi, hv]
      rw [hrun,
        bootstrapStage_run assistant payload cfg _ ac tools n hac htools hb]
      refine ⟨by simp [hi], ?_⟩
      simp [List.count_append, List.count_replicate, ← hn]

/-- Fixture: an assistant whose stored tool list carries two
code-interpreter entries around one other tool. -/
def assistantCI : Assistant :=
  ⟨"a4", [("configurable", .obj [("type==agent/tools",
    .list [.obj [("type", .str "code_interpreter")],
           .obj [("type", .str "search")],
           .obj [("type", .str "code_interpreter")]])])]⟩

/-- Fixture: storage resolving to `assistantCI`. -/
def envCI : Env :=
  ⟨fun _ _ => some ⟨"t4", "a4"⟩, fun _ _ => some assistantCI, fun _ _ => none⟩

/-- The amended claim C2 applied to an assistant storing two
code-interpreter entries: exactly two astart calls happen. -/
theorem tool_scan_uses_assistant_list_witness :
    (run_input_and_config envCI ⟨"t4", none, none⟩ "u").outcome =
      .ok (none, okConfig (resolveConfig assistantCI.config none "u" "t4" "a4")) ∧
    (run_input_and_config envCI ⟨"t4", none, none⟩ "u").events.count
      .astartCall =
      ([JVal.obj [("type", .str "code_interpreter")],
        JVal.obj [("type", .str "search")],
        JVal.obj [("type", .str "code_interpreter")]] :
          List JVal).countP isCodeInterpreterEntry :=
  tool_scan_uses_assistant_list envCI ⟨"t4", none, none⟩ "u"
    ⟨"t4", "a4"⟩ assistantCI
    (okConfig (resolveConfig assistantCI.config none "u" "t4" "a4"))
    [("type==agent/tools",
      .list [.obj [("type", .str "code_interpreter")],
             .obj [("type", .str "search")],
             .obj [("type", .str "code_interpreter")]])]
    [.obj [("type", .str "code_interpreter")],
     .obj [("type", .str "search")],
     .obj [("type", .str "code_interpreter")]]
    rfl rfl rfl rfl rfl rfl (fun _ h => Option.noConfusion h)

/-- Fixture: a request whose input field was absent, hence filled with the
pydantic default. -/
def payloadAbsent : CreateRunPayload := ⟨"t1", parseInputField .absent, none⟩

/-- Claim C3 counterexample: a request whose input field is absent is
parsed to the pydantic default — the empty dict, not None — so validation
is NOT skipped: against a validator that rejects the empty input, dispatch
fails with a RequestValidationError after one validation call, instead of
proceeding with an empty input. -/
theorem absent_input_is_validated :
    payloadAbsent.input = some (.obj []) ∧
    (run_input_and_config envBadVal payloadAbsent "u").outcome =
      .error (.requestValidation ["field required"] payloadAbsent) ∧
    (run_input_and_config envBadVal payloadAbsent "u").events.count
      .validateCall = 1 :=
  ⟨rfl, rfl, rfl⟩

/-- Claim C3 as amended: schema validation is skipped only when the
request's input field is explicitly null (parsed to None), and dispatch
then proceeds with that null input; an absent input field instead defaults
to an empty mapping which — like any present input — is validated against
the input schema derived from the effective (merged) configuration. -/
theorem input_validation_behaviour
    (env : Env) (payload : CreateRunPayload) (user_id : String)
    (thread : Thread) (assistant : Assistant) (cfg : Dict)
    (ht : env.get_thread user_id payload.thread_id = some thread)
    (ha : env.get_assistant user_id thread.assistant_id = some assistant)
    (hres : resolveConfig assistant.config payload.config user_id
      thread.thread_id assistant.assistant_id = .ok cfg) :
    parseInputField .absent = some (.obj []) ∧
    (payload.input = none →
      (run_input_and_config env payload user_id).events.count
        .validateCall = 0 ∧
      ∀ i c, (run_input_and_config env payload user_id).outcome = .ok (i, c) →
        i = none) ∧
    (∀ inp, payload.input = some inp →
      (run_input_and_config env payload user_id).events.count
        .validateCall = 1 ∧
      ∀ errs, env.validateInput cfg inp = some errs →
        (run_input_and_config env payload user_id).outcome =
          .error (.requestValidation errs payload)) := by
  refine ⟨rfl, ?_, ?_⟩
  · intro h
    have hrun : run_input_and_config env payload user_id =
        bootstrapStage assistant payload cfg
          [.threadLookup, .assistantLookup] := by
      simp only [run_input_and_config, ht, ha, hres, h]
    constructor
    · rw [hrun, bootstrapStage_events_count assistant payload cfg _
        .validateCall (by decide)]
      rfl
    · intro i c hok
      rw [run_ok_input env payload user_id i c hok, h]
  · intro inp hinp
    constructor
    · cases hv : env.validateInput cfg inp with
      | some errs =>
        have hrun : run_input_and_config env payload user_id =
            ⟨.error (.requestValidation errs payload),
             [.threadLookup, .assistantLookup, .validateCall]⟩ := by
          simp only [run_input_and_config, ht, ha, hres, hinp, hv]
        rw [hrun]
        rfl
      | none =>
        have hrun : run_input_and_config env payload user_id =
            bootstrapStage assistant payload cfg
              [.threadLookup, .assistantLookup, .validateCall] := by
          simp only [run_input_and_config, ht, ha, hres, hinp, hv]
        rw [hrun, bootstrapStage_events_count assistant payload cfg _
          .validateCall (by decide)]
        rfl
    · intro errs hv
      simp only [run_input_and_config, ht, ha, hres, hinp, hv]

/-- The amended claim C3 applied to a request with an explicitly null
input against `envF`: no validation call happens. -/
theorem input_validation_behaviour_witness :
    parseInputField .absent = some (.obj []) ∧
    (run_input_and_config envF ⟨"t1", none, none⟩ "u").events.count
      .validateCall = 0 :=
  have h := input_validation_behaviour envF ⟨"t1", none, none⟩ "u" threadF
    assistantF (okConfig (resolveConfig assistantF.config none "u" "t1" "a1"))
    rfl rfl rfl
  ⟨h.1, (h.2.1 rfl).1⟩
